import Mathlib

/-!
# Verification of the Gene Cluster Prediction app (src/app.py)

Shallow embedding of the single-pass Streamlit script `src/app.py`.
The script is re-executed top to bottom on each user interaction; we model
one such render pass as a pure function `runApp : Env → RenderResult`.

The environment `Env` captures everything external to the script:
the outcome of the two `joblib.load` calls, the externally supplied
`scaler.transform` and `model.predict` callables (modelled as functions
returning `Except`, error = the Python call raised), the raw values the
user typed into the ten number inputs, whether the "Make Prediction"
button was clicked this pass, and which sidebar gene button (if any)
was clicked.

The result `RenderResult` records the ordered list of items the pass
rendered to the display surface, how the pass ended (completed normally,
halted by `st.stop`, or crashed on an uncaught exception), and whether
the `transform` / `predict` callables were actually invoked.

Numeric expression values are embedded as `Rat` (real-valued in the spec);
classifier labels as `Int`.
-/

namespace GeneClusterApp

/-- Outcome of one `joblib.load(path)` call in the `try` block at the top of
`app.py`: success, `FileNotFoundError`, or any other exception. -/
inductive LoadOutcome where
  | ok
  | fileNotFound
  | otherError (msg : String)
deriving DecidableEq, Repr

/-- One item rendered to the display surface during a pass, in order.
Constructors mirror the `st.*` calls of `app.py`: `st.error`, `st.markdown`,
`st.image`, `st.number_input` (widget with its label and enforced value),
`st.button` (widget), `st.write`, `st.pyplot` of the seaborn barplot
(`chart` with its x-values and y-labels), and the three sidebar calls. -/
inductive RItem where
  | errorMsg (s : String)
  | markdown (s : String)
  | image (path : String)
  | numberInputW (label : String) (value : Rat)
  | buttonW (label : String)
  | writeMsg (s : String)
  | chart (values : List Rat) (labels : List String)
  | sidebarHeader (s : String)
  | sidebarMarkdown (s : String)
  | sidebarWrite (s : String)
deriving DecidableEq, Repr

/-- How a render pass ended: ran to the bottom of the script, was halted by
`st.stop()`, or aborted on an exception that no `except` clause caught. -/
inductive PassOutcome where
  | completed
  | stopped
  | crashed (msg : String)
deriving DecidableEq, Repr

/-- The observable result of one render pass: the rendered items in order,
the way the pass ended, and whether `scaler.transform` / `model.predict`
were invoked during the pass. -/
structure RenderResult where
  items : List RItem
  outcome : PassOutcome
  transformCalled : Bool
  predictCalled : Bool
deriving DecidableEq, Repr

/-- Everything external to one execution of the script. -/
structure Env where
  /-- Outcome of `joblib.load('model.pkl')`. -/
  loadModel : LoadOutcome
  /-- Outcome of `joblib.load('scaler.pkl')`. -/
  loadScaler : LoadOutcome
  /-- `scaler.transform` applied to the one-row DataFrame (here: the labelled
  record); `.error e` means the Python call raised with message `e`. -/
  transform : List (String × Rat) → Except String (List Rat)
  /-- `model.predict` applied to the scaled vector; returns the label array;
  `.error e` means the Python call raised with message `e`. -/
  predict : List Rat → Except String (List Int)
  /-- The raw value currently held by the i-th number-input widget before the
  widget enforces its `min_value`. -/
  rawInput : Nat → Rat
  /-- Whether `st.button('Make Prediction')` returned True this pass. -/
  makePredictionClicked : Bool
  /-- Whether the i-th sidebar gene button returned True this pass. -/
  sidebarClicks : Nat → Bool

/-- `gene_names` list of `app.py` (line 57). -/
def gene_names : List String :=
  ["TESPA1", "SLC17A7", "LINC00507", "KCNIP1", "ANKRD33B",
   "LINC00508", "SFTA1P", "LINC00152", "TBR1", "NPTX1"]

/-- Error text of `st.error` in the artifact-loading `except` clause (line 12). -/
def artifactErrorMsg : String :=
  "Model or Scaler file not found. Please upload the necessary files."

/-- `st.write` text of the membership branch (line 82). -/
def memberMsg : String :=
  "The sample belongs to **E1 gene cluster**! 🎯"

/-- `st.write` text of the non-membership branch (line 84). -/
def notMemberMsg : String :=
  "The sample does **NOT** belong to the **E1 gene cluster**. ❌"

/-- `st.number_input(..., min_value=0.0, step=0.1)`: the widget enforces its
minimum, so the value it yields is the requested value clamped to `≥ 0`. -/
def numberInput (requested : Rat) : Rat := max 0 requested

/-- The `input_data` dict built by the loop over `gene_names` (lines 60-62):
one `(gene, value)` pair per gene, in list order, each value coming from the
corresponding number-input widget. `i` is the index of the current widget. -/
def inputData (raw : Nat → Rat) : Nat → List String → List (String × Rat)
  | _, [] => []
  | i, g :: rest => (g, numberInput (raw i)) :: inputData raw (i + 1) rest

/-- The number-input widgets the same loop renders, in order. -/
def inputWidgets (raw : Nat → Rat) : Nat → List String → List RItem
  | _, [] => []
  | i, g :: rest =>
      RItem.numberInputW ("Enter expression value for " ++ g) (numberInput (raw i))
        :: inputWidgets raw (i + 1) rest

/-- The items rendered between a successful artifact load and the input loop
(lines 16-54): title markdown, DNA image, the dimmed-background CSS markdown,
and the explanation markdown. -/
def headerItems : List RItem :=
  [ RItem.markdown "<h1 style=\x27font-size: 36px;\x27>Gene Cluster Prediction for E1</h1>",
    RItem.image "./images/dna.png",
    RItem.markdown "<style> .dimmed-background \x7b background-image: url(\x27./images/dna.png\x27); background-size: cover; height: 100%; filter: brightness(50%); position: fixed; top: 0; left: 0; width: 100%; z-index: -1; \x7d </style> <div class=\"dimmed-background\"></div>",
    RItem.markdown "Welcome to the **Gene Cluster Prediction Tool**! 🎉\nEnter the gene expression values below, and our model will predict whether\nthe sample belongs to the **E1 gene cluster** based on the 10 most important features.\n### About the Prediction Model\nThis model uses gene expression data from selected features, including **TESPA1**, **SLC17A7**, **LINC00507**,\n**KCNIP1**, **ANKRD33B**, **LINC00508**, **SFTA1P**, **LINC00152**, **TBR1**, and **NPTX1**,\nwhich were found to be the most predictive for determining **E1 gene cluster** classification." ]

/-- `feature_importance` (line 98), the hard-coded bar values of the chart. -/
def feature_importance : List Rat :=
  [0.25, 0.18, 0.15, 0.1, 0.08, 0.07, 0.05, 0.04, 0.03, 0.02]

/-- `features` (lines 99-100), the y-axis labels of the chart. -/
def features : List String :=
  ["TESPA1", "SLC17A7", "LINC00507", "KCNIP1", "ANKRD33B",
   "LINC00508", "SFTA1P", "LINC00152", "TBR1", "NPTX1"]

/-- The items rendered inside the "View More Information" expander
(lines 89-122): intro markdown, the barplot, and the related-information
markdown. -/
def expanderItems : List RItem :=
  [ RItem.markdown "### Gene Importance in E1 Cluster Prediction\nThe following graph illustrates the **Gini Importance** of the selected 10 genes used in the prediction model.\nThis metric shows the relative importance of each gene for determining the **E1 gene cluster** classification.",
    RItem.chart feature_importance features,
    RItem.markdown "### Related Information:\nGene expression data plays a critical role in understanding cellular processes and disease mechanisms.\nThe genes selected for this prediction model are involved in various biological functions, including neurotransmitter\nregulation, signal transduction, and cellular development.\n- **TESPA1** and **SLC17A7** are involved in neurotransmitter signaling and play roles in neuronal function.\n- **LINC00507**, **LINC00508**, and **LINC00152** are non-coding RNAs with regulatory roles in gene expression.\n- **TBR1** and **ANKRD33B** are implicated in neurodevelopmental processes.\nFor more details on these genes, refer to the latest scientific literature and gene expression studies." ]

/-- The footer markdown (lines 126-131). -/
def footerItems : List RItem :=
  [ RItem.markdown "---\n### Contact Information\nFor more details on this project, please feel free to contact us at [support@geneclusterpredictor.com](mailto:your-email@example.com).\nThis tool was developed as part of a bioinformatics project for gene cluster classification." ]

/-- The ten sidebar gene blocks (lines 137-205): for each gene, the button
label, the `st.sidebar.markdown` heading, and the `st.sidebar.write` text. -/
def geneInfos : List (String × String × String) :=
  [ ("TESPA1", "### TESPA1 - Tetraspanin 1",
     "**TESPA1** is involved in neurotransmitter regulation and plays a critical role in neuronal function.\nIt is associated with synaptic vesicle formation and the regulation of synaptic activity, making it an important gene for the **E1 gene cluster** prediction."),
    ("SLC17A7", "### SLC17A7 - Solute Carrier Family 17 Member 7",
     "**SLC17A7** is involved in the transport of neurotransmitters in synaptic vesicles. It plays an essential role in synaptic signaling\nby regulating the uptake of neurotransmitters like glutamate and GABA, which are crucial for proper neuronal communication."),
    ("LINC00507", "### LINC00507 - Long Intergenic Non-Protein Coding RNA 507",
     "**LINC00507** is a long non-coding RNA that is involved in regulating gene expression at the transcriptional level.\nIt is associated with cellular processes, including cell differentiation and apoptosis, and may play a regulatory role in brain development."),
    ("KCNIP1", "### KCNIP1 - Potassium Channel Interacting Protein 1",
     "**KCNIP1** encodes a protein that modulates neuronal excitability, synaptic plasticity, and synaptic transmission.\nThis gene is crucial for maintaining proper neural signaling and memory processes."),
    ("ANKRD33B", "### ANKRD33B - Ankyrin Repeat Domain 33B",
     "**ANKRD33B** is implicated in neurodevelopment and plays a role in synaptic signaling. It is involved in regulating\nthe growth and differentiation of neurons, making it essential for brain function and development."),
    ("LINC00508", "### LINC00508 - Long Intergenic Non-Protein Coding RNA 508",
     "**LINC00508** is a long non-coding RNA that plays a significant role in regulating gene expression and cellular processes.\nIt is believed to participate in neuronal differentiation and could influence neurological disorders."),
    ("SFTA1P", "### SFTA1P - Surfactant Associated 1 Pseudogene",
     "**SFTA1P** is involved in pulmonary surfactant regulation and may have implications for neurological diseases as well.\nIts role in gene expression regulation has been linked to neural development and function."),
    ("LINC00152", "### LINC00152 - Long Intergenic Non-Protein Coding RNA 152",
     "**LINC00152** is a long non-coding RNA that regulates gene expression. It has been linked to various biological processes,\nincluding cellular signaling and brain development, making it important in neurodevelopmental studies."),
    ("TBR1", "### TBR1 - T-Box Brain Transcription Factor 1",
     "**TBR1** is a transcription factor involved in the development of neurons and their organization in the brain.\nIt plays a critical role in neurodevelopment and is associated with neurological disorders."),
    ("NPTX1", "### NPTX1 - Neuronal Pentraxin 1",
     "**NPTX1** is involved in synaptic signaling and plasticity. It plays an important role in the modulation of synaptic\ntransmission, learning, and memory. This gene is essential for cognitive function and neuronal health.") ]

/-- The per-gene `if st.sidebar.button(...)` blocks, in source order: gene `i`
contributes its heading and text exactly when its button was clicked. -/
def sidebarBlocks (clicks : Nat → Bool) : Nat → List (String × String × String) → List RItem
  | _, [] => []
  | i, info :: rest =>
      (if clicks i then [RItem.sidebarMarkdown info.2.1, RItem.sidebarWrite info.2.2] else [])
        ++ sidebarBlocks clicks (i + 1) rest

/-- Everything rendered to the sidebar (lines 134-205): the header and the
ten conditional gene blocks. -/
def sidebarItems (clicks : Nat → Bool) : List RItem :=
  RItem.sidebarHeader "Gene Information" :: sidebarBlocks clicks 0 geneInfos

/-- Message of the `IndexError` Python raises at `prediction[0]` when the
label array is empty; it is raised inside the `try` of lines 76-86. -/
def indexErrorText : String :=
  "index 0 is out of bounds for axis 0 with size 0"

/-- The items rendered by the `try`/`except` body under the prediction button
(lines 76-86): error message if `model.predict` raised; otherwise the
membership message when `prediction[0] == 1`, the non-membership message for
every other first label, and the caught `IndexError` when the label array is
empty. -/
def predictionItems (env : Env) (input_scaled : List Rat) : List RItem :=
  match env.predict input_scaled with
  | .error e => [RItem.errorMsg ("Error during prediction: " ++ e)]
  | .ok prediction =>
    match prediction with
    | [] => [RItem.errorMsg ("Error during prediction: " ++ indexErrorText)]
    | x :: _ =>
      if x = 1 then [RItem.writeMsg memberMsg] else [RItem.writeMsg notMemberMsg]

/-- One full top-to-bottom render pass of `app.py`.

Control flow mirrors the script: the artifact `try` block (a
`FileNotFoundError` from either load is caught, the error is shown and
`st.stop()` halts the pass; any other exception propagates uncaught, ending
the pass with nothing rendered since the loads precede all rendering); the
header; the input loop; the scaling `try` block (`st.error` + `st.stop()` on
failure); the prediction button with its guarded `try` block; the expander;
the footer; the sidebar. -/
def runApp (env : Env) : RenderResult :=
  match env.loadModel with
  | .otherError e => ⟨[], .crashed e, false, false⟩
  | .fileNotFound => ⟨[RItem.errorMsg artifactErrorMsg], .stopped, false, false⟩
  | .ok =>
    match env.loadScaler with
    | .otherError e => ⟨[], .crashed e, false, false⟩
    | .fileNotFound => ⟨[RItem.errorMsg artifactErrorMsg], .stopped, false, false⟩
    | .ok =>
      let pre := headerItems ++ inputWidgets env.rawInput 0 gene_names
      match env.transform (inputData env.rawInput 0 gene_names) with
      | .error e =>
          ⟨pre ++ [RItem.errorMsg ("Error during data scaling: " ++ e)], .stopped, true, false⟩
      | .ok input_scaled =>
          let predPart :=
            if env.makePredictionClicked then predictionItems env input_scaled else []
          ⟨pre ++ [RItem.buttonW "Make Prediction"] ++ predPart
             ++ expanderItems ++ footerItems ++ sidebarItems env.sidebarClicks,
           .completed, true, env.makePredictionClicked⟩

/-- Recognises the two fixed outcome messages of the prediction branch. -/
def isOutcomeMsg : RItem → Bool
  | .writeMsg s => s == memberMsg || s == notMemberMsg
  | _ => false

/-- Recognises any `st.write` item. -/
def isWriteMsg : RItem → Bool
  | .writeMsg _ => true
  | _ => false

/-- Number of outcome messages (membership or non-membership) in a rendered
item list. -/
def outcomeMsgCount (items : List RItem) : Nat :=
  items.countP isOutcomeMsg

/-! ## Concrete environments used to evaluate the model on explicit inputs -/

/-- A transform that returns normally: the scaled vector is the record's
values (a concrete stand-in for a fitted scaler that does not raise). -/
def idTransform : List (String × Rat) → Except String (List Rat) :=
  fun d => Except.ok (d.map Prod.snd)

/-- A transform that raises with message `e` on every input. -/
def raiseTransform (e : String) : List (String × Rat) → Except String (List Rat) :=
  fun _ => Except.error e

/-- A classifier that returns the fixed label array `l` on every input. -/
def constPredict (l : List Int) : List Rat → Except String (List Int) :=
  fun _ => Except.ok l

/-- A classifier that raises with message `e` on every input. -/
def raisePredict (e : String) : List Rat → Except String (List Int) :=
  fun _ => Except.error e

/-- Baseline execution: both artifacts load, transform returns normally,
the classifier returns label 1, all inputs are zero, the prediction button
was clicked, no sidebar button was clicked. -/
def baseEnv : Env where
  loadModel := .ok
  loadScaler := .ok
  transform := idTransform
  predict := constPredict [1]
  rawInput := fun _ => 0
  makePredictionClicked := true
  sidebarClicks := fun _ => false

/-- Execution in which `joblib.load('model.pkl')` raises `FileNotFoundError`. -/
def missingEnv : Env := { baseEnv with loadModel := .fileNotFound }

/-- Execution in which `model.predict` raises. -/
def predictRaisesEnv : Env := { baseEnv with predict := raisePredict "boom" }

/-- Execution in which `scaler.transform` raises. -/
def transformRaisesEnv : Env := { baseEnv with transform := raiseTransform "bad shape" }

/-- Execution in which `joblib.load('model.pkl')` raises an exception other
than `FileNotFoundError` (e.g. a corrupt pickle). -/
def corruptEnv : Env := { baseEnv with loadModel := .otherError "invalid load key" }

/-- Execution in which the classifier returns the label 0. -/
def labelZeroEnv : Env := { baseEnv with predict := constPredict [0] }

/-! ## Structural lemmas -/

lemma numberInput_nonneg (v : Rat) : 0 ≤ numberInput v := le_max_left 0 v

lemma inputData_keys (raw : Nat → Rat) (l : List String) :
    ∀ i, (inputData raw i l).map Prod.fst = l := by
  induction l with
  | nil => intro i; rfl
  | cons g rest ih => intro i; simp [inputData, ih]

lemma inputData_values_nonneg (raw : Nat → Rat) (l : List String) :
    ∀ i, ∀ p ∈ inputData raw i l, 0 ≤ p.2 := by
  induction l with
  | nil => intro i p hp; simp [inputData] at hp
  | cons g rest ih =>
      intro i p hp
      rw [inputData] at hp
      rcases List.mem_cons.mp hp with rfl | hp
      · exact numberInput_nonneg _
      · exact ih (i + 1) p hp

lemma isWriteMsg_of_isOutcomeMsg (x : RItem) :
    isOutcomeMsg x = true → isWriteMsg x = true := by
  cases x <;> simp [isOutcomeMsg, isWriteMsg]

lemma header_no_write : ∀ x ∈ headerItems, isWriteMsg x = false := by decide

lemma expander_no_write : ∀ x ∈ expanderItems, isWriteMsg x = false := by decide

lemma footer_no_write : ∀ x ∈ footerItems, isWriteMsg x = false := by decide

lemma inputWidgets_no_write (raw : Nat → Rat) (l : List String) :
    ∀ i, ∀ x ∈ inputWidgets raw i l, isWriteMsg x = false := by
  induction l with
  | nil => intro i x hx; simp [inputWidgets] at hx
  | cons g rest ih =>
      intro i x hx
      rw [inputWidgets] at hx
      rcases List.mem_cons.mp hx with rfl | hx
      · rfl
      · exact ih (i + 1) x hx

lemma sidebarBlocks_no_write (clicks : Nat → Bool) (l : List (String × String × String)) :
    ∀ i, ∀ x ∈ sidebarBlocks clicks i l, isWriteMsg x = false := by
  induction l with
  | nil => intro i x hx; simp [sidebarBlocks] at hx
  | cons info rest ih =>
      intro i x hx
      rw [sidebarBlocks] at hx
      rcases List.mem_append.mp hx with h | h
      · by_cases hc : clicks i
        · simp [hc] at h
          rcases h with rfl | rfl <;> rfl
        · simp [hc] at h
      · exact ih (i + 1) x h

lemma sidebar_no_write (clicks : Nat → Bool) :
    ∀ x ∈ sidebarItems clicks, isWriteMsg x = false := by
  intro x hx
  rw [sidebarItems] at hx
  rcases List.mem_cons.mp hx with rfl | hx
  · rfl
  · exact sidebarBlocks_no_write clicks geneInfos 0 x hx

lemma countP_outcome_zero {l : List RItem} (h : ∀ x ∈ l, isWriteMsg x = false) :
    l.countP isOutcomeMsg = 0 := by
  rw [List.countP_eq_zero]
  intro x hx hox
  have := isWriteMsg_of_isOutcomeMsg x hox
  rw [h x hx] at this
  exact Bool.false_ne_true this

lemma writeMsg_not_mem {l : List RItem} (h : ∀ x ∈ l, isWriteMsg x = false) (s : String) :
    RItem.writeMsg s ∉ l := by
  intro hm
  have := h _ hm
  simp [isWriteMsg] at this

/-- Shape of the result of a pass in which both artifact loads succeed and
`scaler.transform` returns normally. -/
lemma runApp_ok (env : Env) (v : List Rat)
    (hm : env.loadModel = .ok) (hs : env.loadScaler = .ok)
    (htr : env.transform (inputData env.rawInput 0 gene_names) = .ok v) :
    runApp env =
      ⟨headerItems ++ inputWidgets env.rawInput 0 gene_names
         ++ [RItem.buttonW "Make Prediction"]
         ++ (if env.makePredictionClicked then predictionItems env v else [])
         ++ expanderItems ++ footerItems ++ sidebarItems env.sidebarClicks,
       .completed, true, env.makePredictionClicked⟩ := by
  rw [runApp, hm, hs, htr]

/-- In a pass with successful loads and scaling, every outcome message comes
from the prediction-button block. -/
lemma outcomeMsgCount_runApp_ok (env : Env) (v : List Rat)
    (hm : env.loadModel = .ok) (hs : env.loadScaler = .ok)
    (htr : env.transform (inputData env.rawInput 0 gene_names) = .ok v) :
    outcomeMsgCount (runApp env).items =
      outcomeMsgCount (if env.makePredictionClicked then predictionItems env v else []) := by
  rw [runApp_ok env v hm hs htr]
  simp only [outcomeMsgCount, List.countP_append]
  rw [countP_outcome_zero header_no_write,
      countP_outcome_zero (inputWidgets_no_write env.rawInput gene_names 0),
      countP_outcome_zero expander_no_write,
      countP_outcome_zero footer_no_write,
      countP_outcome_zero (sidebar_no_write env.sidebarClicks)]
  have hb : List.countP isOutcomeMsg [RItem.buttonW "Make Prediction"] = 0 := rfl
  rw [hb]
  simp

lemma member_ne_notMember : memberMsg ≠ notMemberMsg := by decide

/-- In a pass with successful loads and scaling, an `st.write` item is
rendered iff the prediction-button block rendered it. -/
lemma writeMsg_mem_runApp_ok (env : Env) (v : List Rat) (s : String)
    (hm : env.loadModel = .ok) (hs : env.loadScaler = .ok)
    (htr : env.transform (inputData env.rawInput 0 gene_names) = .ok v) :
    RItem.writeMsg s ∈ (runApp env).items ↔
      RItem.writeMsg s ∈ (if env.makePredictionClicked then predictionItems env v else []) := by
  have h1 := writeMsg_not_mem header_no_write s
  have h2 := writeMsg_not_mem (inputWidgets_no_write env.rawInput gene_names 0) s
  have h3 := writeMsg_not_mem expander_no_write s
  have h4 := writeMsg_not_mem footer_no_write s
  have h5 := writeMsg_not_mem (sidebar_no_write env.sidebarClicks) s
  rw [runApp_ok env v hm hs htr]
  simp [List.mem_append, h1, h2, h3, h4, h5]

/-! ## Claims -/

/-- C1 (counterexample): an execution in which both artifacts are present,
scaling succeeds, the record is all zeros and the user triggers
"Make Prediction", yet NEITHER of the two fixed outcome messages is rendered:
`model.predict` raises, so the `except` clause renders the prediction-error
message instead. This refutes "never neither". -/
theorem C1_counterexample :
    predictRaisesEnv.loadModel = .ok ∧ predictRaisesEnv.loadScaler = .ok ∧
    predictRaisesEnv.makePredictionClicked = true ∧
    (∀ i, predictRaisesEnv.rawInput i = 0) ∧
    (∃ v, predictRaisesEnv.transform
        (inputData predictRaisesEnv.rawInput 0 gene_names) = Except.ok v) ∧
    outcomeMsgCount (runApp predictRaisesEnv).items = 0 :=
  ⟨rfl, rfl, rfl, fun _ => rfl, ⟨_, rfl⟩, rfl⟩

/-- C1 (amended): in an execution where both artifacts are present, scaling
succeeds, the record is all zeros, the user triggers "Make Prediction", and
the classification call returns normally with at least one label, exactly one
of the two fixed outcome messages is rendered — never both, never neither. -/
theorem C1_exactly_one_outcome (env : Env) (v : List Rat) (x : Int) (rest : List Int)
    (hm : env.loadModel = .ok) (hs : env.loadScaler = .ok)
    (hz : ∀ i, env.rawInput i = 0)
    (htr : env.transform (inputData env.rawInput 0 gene_names) = Except.ok v)
    (hb : env.makePredictionClicked = true)
    (hp : env.predict v = Except.ok (x :: rest)) :
    outcomeMsgCount (runApp env).items = 1 := by
  rw [outcomeMsgCount_runApp_ok env v hm hs htr, hb]
  simp only [if_true]
  simp only [outcomeMsgCount, predictionItems, hp]
  by_cases hx : x = 1
  · rw [if_pos hx]; decide
  · rw [if_neg hx]; decide

/-- C1 witness: the amended theorem applied to the baseline execution
(all-zero record, both artifacts present, classifier returns label 1). -/
theorem C1_exactly_one_outcome_witness :
    outcomeMsgCount (runApp baseEnv).items = 1 :=
  C1_exactly_one_outcome baseEnv
    ((inputData baseEnv.rawInput 0 gene_names).map Prod.snd) 1 []
    rfl rfl (fun _ => rfl) rfl rfl rfl

/-- C2: if `scaler.transform` raises, then `model.predict` is never invoked
in that pass, the scaling-error message is rendered, and it is the last item
rendered (the pass is halted by `st.stop`, so no further rendering occurs). -/
theorem C2_scaling_error_halts (env : Env) (e : String)
    (hm : env.loadModel = .ok) (hs : env.loadScaler = .ok)
    (htr : env.transform (inputData env.rawInput 0 gene_names) = Except.error e) :
    (runApp env).predictCalled = false ∧
    (runApp env).outcome = .stopped ∧
    (runApp env).items =
      headerItems ++ inputWidgets env.rawInput 0 gene_names
        ++ [RItem.errorMsg ("Error during data scaling: " ++ e)] := by
  rw [runApp, hm, hs, htr]
  exact ⟨rfl, rfl, rfl⟩

/-- C2 witness: the theorem applied to an execution whose transform raises
with message "bad shape". -/
theorem C2_scaling_error_halts_witness :
    (runApp transformRaisesEnv).predictCalled = false ∧
    (runApp transformRaisesEnv).outcome = .stopped ∧
    (runApp transformRaisesEnv).items =
      headerItems ++ inputWidgets transformRaisesEnv.rawInput 0 gene_names
        ++ [RItem.errorMsg ("Error during data scaling: " ++ "bad shape")] :=
  C2_scaling_error_halts transformRaisesEnv "bad shape" rfl rfl rfl

/-- C3: if scaling succeeds and `model.predict` raises on the triggered
prediction, neither outcome message is rendered, the classification-error
message is rendered instead, and the rest of the view (the chart and the
sidebar) is still rendered, the pass completing normally. -/
theorem C3_classify_error_scoped (env : Env) (v : List Rat) (e : String)
    (hm : env.loadModel = .ok) (hs : env.loadScaler = .ok)
    (htr : env.transform (inputData env.rawInput 0 gene_names) = Except.ok v)
    (hb : env.makePredictionClicked = true)
    (hp : env.predict v = Except.error e) :
    (runApp env).outcome = .completed ∧
    outcomeMsgCount (runApp env).items = 0 ∧
    RItem.errorMsg ("Error during prediction: " ++ e) ∈ (runApp env).items ∧
    RItem.chart feature_importance features ∈ (runApp env).items ∧
    RItem.sidebarHeader "Gene Information" ∈ (runApp env).items := by
  have hr := runApp_ok env v hm hs htr
  refine ⟨by rw [hr], ?_, ?_, ?_, ?_⟩
  · rw [outcomeMsgCount_runApp_ok env v hm hs htr, hb]
    simp only [if_true]
    simp only [outcomeMsgCount, predictionItems, hp]
    simp [List.countP_cons, List.countP_nil, isOutcomeMsg]
  · rw [hr]
    simp [predictionItems, hp, hb]
  · rw [hr]
    simp [expanderItems]
  · rw [hr]
    simp [sidebarItems]

/-- C3 witness: the theorem applied to an execution whose classifier raises
with message "boom". -/
theorem C3_classify_error_scoped_witness :
    (runApp predictRaisesEnv).outcome = .completed ∧
    outcomeMsgCount (runApp predictRaisesEnv).items = 0 ∧
    RItem.errorMsg ("Error during prediction: " ++ "boom") ∈ (runApp predictRaisesEnv).items ∧
    RItem.chart feature_importance features ∈ (runApp predictRaisesEnv).items ∧
    RItem.sidebarHeader "Gene Information" ∈ (runApp predictRaisesEnv).items :=
  C3_classify_error_scoped predictRaisesEnv
    ((inputData predictRaisesEnv.rawInput 0 gene_names).map Prod.snd) "boom"
    rfl rfl rfl rfl rfl

/-- C4: if loading either artifact file raises `FileNotFoundError`, the pass
renders exactly the missing-artifact error message and is halted by `st.stop`
before any widget — in particular the "Make Prediction" trigger — is
rendered, and neither external callable is invoked. -/
theorem C4_missing_artifact_halts (env : Env)
    (h : env.loadModel = .fileNotFound ∨
         (env.loadModel = .ok ∧ env.loadScaler = .fileNotFound)) :
    runApp env = ⟨[RItem.errorMsg artifactErrorMsg], .stopped, false, false⟩ ∧
    RItem.buttonW "Make Prediction" ∉ (runApp env).items := by
  have hr : runApp env = ⟨[RItem.errorMsg artifactErrorMsg], .stopped, false, false⟩ := by
    rcases h with h1 | ⟨h1, h2⟩
    · rw [runApp, h1]
    · rw [runApp, h1, h2]
  refine ⟨hr, ?_⟩
  rw [hr]
  decide

/-- C4 witness: the theorem applied to an execution where `model.pkl` is
absent. -/
theorem C4_missing_artifact_halts_witness :
    runApp missingEnv = ⟨[RItem.errorMsg artifactErrorMsg], .stopped, false, false⟩ ∧
    RItem.buttonW "Make Prediction" ∉ (runApp missingEnv).items :=
  C4_missing_artifact_halts missingEnv (Or.inl rfl)

/-- C5: in every render pass, the record built from the form holds exactly
the ten fixed gene keys, in order, and — whatever values the user attempted
to enter — every stored value is ≥ 0, because each `st.number_input` widget
enforces its minimum of 0.0. -/
theorem C5_record_keys_and_nonneg (raw : Nat → Rat) :
    (inputData raw 0 gene_names).map Prod.fst = gene_names ∧
    ∀ p ∈ inputData raw 0 gene_names, 0 ≤ p.2 :=
  ⟨inputData_keys raw gene_names 0, inputData_values_nonneg raw gene_names 0⟩

/-- C5 witness: the theorem applied to a form where the user attempted -5
in every field; in particular the first stored pair is clamped and ≥ 0. -/
theorem C5_record_keys_and_nonneg_witness :
    (inputData (fun _ => (-5 : Rat)) 0 gene_names).map Prod.fst = gene_names ∧
    0 ≤ (("TESPA1", numberInput (-5)) : String × Rat).2 :=
  ⟨(C5_record_keys_and_nonneg (fun _ => (-5 : Rat))).1,
   (C5_record_keys_and_nonneg (fun _ => (-5 : Rat))).2
     ("TESPA1", numberInput (-5)) (by decide)⟩

/-- C6 (counterexample): a render pass in which the chart is NOT rendered —
when `model.pkl` is absent the pass halts at the artifact error, so the
"in every render pass" quantification of the claim fails. -/
theorem C6_counterexample :
    RItem.chart feature_importance features ∉ (runApp missingEnv).items := by
  decide

/-- C6 (amended): in every render pass in which the artifacts load and
scaling succeeds, regardless of user input, the static feature-importance
chart is rendered with exactly the 10 hard-coded bar values 0.25, 0.18,
0.15, 0.10, 0.08, 0.07, 0.05, 0.04, 0.03, 0.02, which sum to 0.97. -/
theorem C6_chart_fixed (env : Env) (v : List Rat)
    (hm : env.loadModel = .ok) (hs : env.loadScaler = .ok)
    (htr : env.transform (inputData env.rawInput 0 gene_names) = Except.ok v) :
    RItem.chart feature_importance features ∈ (runApp env).items ∧
    feature_importance =
      [0.25, 0.18, 0.15, 0.1, 0.08, 0.07, 0.05, 0.04, 0.03, 0.02] ∧
    feature_importance.length = 10 ∧
    feature_importance.sum = 0.97 := by
  refine ⟨?_, rfl, by decide, by norm_num [feature_importance]⟩
  rw [runApp_ok env v hm hs htr]
  simp [expanderItems]

/-- C6 witness: the amended theorem applied to the baseline execution. -/
theorem C6_chart_fixed_witness :
    RItem.chart feature_importance features ∈ (runApp baseEnv).items ∧
    feature_importance =
      [0.25, 0.18, 0.15, 0.1, 0.08, 0.07, 0.05, 0.04, 0.03, 0.02] ∧
    feature_importance.length = 10 ∧
    feature_importance.sum = 0.97 :=
  C6_chart_fixed baseEnv ((inputData baseEnv.rawInput 0 gene_names).map Prod.snd)
    rfl rfl rfl

/-- C7: activating exactly the i-th sidebar gene toggle renders exactly the
sidebar header plus that gene's own heading and description — no other
gene's text (the ten description texts are pairwise distinct, so gene i's
text is no other gene's). -/
theorem C7_sidebar_toggle (i : Nat) (hi : i < 10) :
    sidebarItems (fun j => decide (j = i)) =
      [RItem.sidebarHeader "Gene Information",
       RItem.sidebarMarkdown ((geneInfos.getD i ("", "", "")).2.1),
       RItem.sidebarWrite ((geneInfos.getD i ("", "", "")).2.2)] ∧
    (geneInfos.map fun g => g.2.2).Nodup := by
  refine ⟨?_, by decide⟩
  interval_cases i <;> rfl

/-- C7 witness: the theorem applied to the first toggle (TESPA1). -/
theorem C7_sidebar_toggle_witness :
    sidebarItems (fun j => decide (j = 0)) =
      [RItem.sidebarHeader "Gene Information",
       RItem.sidebarMarkdown ((geneInfos.getD 0 ("", "", "")).2.1),
       RItem.sidebarWrite ((geneInfos.getD 0 ("", "", "")).2.2)] ∧
    (geneInfos.map fun g => g.2.2).Nodup :=
  C7_sidebar_toggle 0 (by decide)

/-- C8 (counterexample): a render pass in which `scaler.transform` is NOT
invoked — when `model.pkl` is absent the pass halts before the scaling step,
so the claim's "in every render pass ... invoked unconditionally" fails. -/
theorem C8_counterexample :
    (runApp missingEnv).transformCalled = false := by
  decide

/-- C8 (amended): in every render pass in which both artifacts load,
`scaler.transform` is invoked regardless of whether the prediction button was
clicked; and in every render pass whatsoever, `model.predict` is invoked only
if the user clicked "Make Prediction". -/
theorem C8_call_discipline (env : Env) :
    (env.loadModel = .ok → env.loadScaler = .ok →
      (runApp env).transformCalled = true) ∧
    ((runApp env).predictCalled = true → env.makePredictionClicked = true) := by
  constructor
  · intro hm hs
    rw [runApp, hm, hs]
    rcases h : env.transform (inputData env.rawInput 0 gene_names) with e | v <;>
      simp [h]
  · intro hp
    rw [runApp] at hp
    cases hml : env.loadModel with
    | fileNotFound => rw [hml] at hp; simp at hp
    | otherError e => rw [hml] at hp; simp at hp
    | ok =>
      rw [hml] at hp
      cases hsl : env.loadScaler with
      | fileNotFound => rw [hsl] at hp; simp at hp
      | otherError e => rw [hsl] at hp; simp at hp
      | ok =>
        rw [hsl] at hp
        cases htr : env.transform (inputData env.rawInput 0 gene_names) with
        | error e => rw [htr] at hp; simp at hp
        | ok v => rw [htr] at hp; exact hp

/-- C8 witness: the amended theorem applied to the baseline execution, where
both calls happen and the button was clicked. -/
theorem C8_call_discipline_witness :
    (runApp baseEnv).transformCalled = true ∧ baseEnv.makePredictionClicked = true :=
  ⟨(C8_call_discipline baseEnv).1 rfl rfl, (C8_call_discipline baseEnv).2 rfl⟩

/-- C9: if either `joblib.load` raises an exception other than
`FileNotFoundError`, the pass ends with that exception propagating uncaught
and with an empty item list — in particular no user-visible error message is
rendered. -/
theorem C9_other_load_error_uncaught (env : Env) (e : String) :
    (env.loadModel = .otherError e →
      runApp env = ⟨[], .crashed e, false, false⟩) ∧
    (env.loadModel = .ok → env.loadScaler = .otherError e →
      runApp env = ⟨[], .crashed e, false, false⟩) := by
  constructor
  · intro h
    rw [runApp, h]
  · intro hm hs
    rw [runApp, hm, hs]

/-- C9 witness: the theorem applied to an execution where unpickling the
model raises a non-`FileNotFoundError` exception. -/
theorem C9_other_load_error_uncaught_witness :
    runApp corruptEnv = ⟨[], .crashed "invalid load key", false, false⟩ :=
  (C9_other_load_error_uncaught corruptEnv "invalid load key").1 rfl

/-- C10: with artifacts loaded, scaling succeeded and the prediction
triggered, the membership message is rendered exactly when the first element
of the returned label array equals 1, and for EVERY other first label the
catch-all non-membership message is rendered (and the membership message is
not). -/
theorem C10_catch_all (env : Env) (v : List Rat) (x : Int) (rest : List Int)
    (hm : env.loadModel = .ok) (hs : env.loadScaler = .ok)
    (htr : env.transform (inputData env.rawInput 0 gene_names) = Except.ok v)
    (hb : env.makePredictionClicked = true)
    (hp : env.predict v = Except.ok (x :: rest)) :
    (RItem.writeMsg memberMsg ∈ (runApp env).items ↔ x = 1) ∧
    (x ≠ 1 → RItem.writeMsg notMemberMsg ∈ (runApp env).items ∧
      RItem.writeMsg memberMsg ∉ (runApp env).items) := by
  have hmemM := writeMsg_mem_runApp_ok env v memberMsg hm hs htr
  have hmemN := writeMsg_mem_runApp_ok env v notMemberMsg hm hs htr
  rw [hb] at hmemM hmemN
  simp only [if_true, predictionItems, hp] at hmemM hmemN
  constructor
  · rw [hmemM]
    by_cases hx : x = 1
    · simp [hx]
    · simp [hx, member_ne_notMember]
  · intro hx
    refine ⟨?_, ?_⟩
    · rw [hmemN]
      simp [hx]
    · rw [hmemM]
      simp [hx, member_ne_notMember]

/-- C10 witness: the theorem applied to an execution where the classifier
returns label 0: the non-membership message is rendered and the membership
message is not. -/
theorem C10_catch_all_witness :
    (RItem.writeMsg memberMsg ∈ (runApp labelZeroEnv).items ↔ (0 : Int) = 1) ∧
    ((0 : Int) ≠ 1 → RItem.writeMsg notMemberMsg ∈ (runApp labelZeroEnv).items ∧
      RItem.writeMsg memberMsg ∉ (runApp labelZeroEnv).items) :=
  C10_catch_all labelZeroEnv
    ((inputData labelZeroEnv.rawInput 0 gene_names).map Prod.snd) 0 []
    rfl rfl rfl rfl rfl

end GeneClusterApp
